import Mathlib

/-
A shallow embedding of the rucaptcha captcha-solver HTTP client
(src/index.js) together with theorems about its observable behaviour.

Network, timer and filesystem effects are made explicit: the remote
service is scripted by lists of responses, buffers are lists of byte
values, and each HTTP request issued by the client is recorded as a
value listing exactly the options the code passes to the request
library.  The polling loop is run against a finite script of responses;
a result of none means the loop consumed the whole script and is still
running (it has not terminated within that many responses).
-/

namespace Rucaptcha

/-! ## Base64 recognition (src/index.js lines 7 to 8)

The source tests a string against the regular expression

  caret ([A-Za-z0-9+/]{4})* ([A-Za-z0-9+/]{4} | [A-Za-z0-9+/]{3}= | [A-Za-z0-9+/]{2}==) dollar

that is: zero or more full groups of four characters from the base64
alphabet, followed by one mandatory final group of four characters that
may end in one or two padding characters.  The empty string is rejected
because the final group is mandatory. -/

/-- The base64 alphabet in order: the character class [A-Za-z0-9+/] of the
regex, which is also the encoding alphabet used by Buffer. -/
def b64Alphabet : List Char :=
  "ABCDEFGHIJKLMNOPQRSTUVWXYZabcdefghijklmnopqrstuvwxyz0123456789+/".toList

/-- Membership in the regex character class [A-Za-z0-9+/]. -/
def isBase64Char (c : Char) : Bool := b64Alphabet.contains c

/-- The language of the isBase64 regex, on the character list of the
subject string: groups of four alphabet characters, the final group
optionally carrying one or two trailing padding characters. -/
def isBase64Chars : List Char → Bool
  | a :: b :: c :: d :: rest =>
    match rest with
    | [] =>
      (isBase64Char a && isBase64Char b && isBase64Char c && isBase64Char d) ||
      (isBase64Char a && isBase64Char b && isBase64Char c && d == '=') ||
      (isBase64Char a && isBase64Char b && c == '=' && d == '=')
    | _ :: _ =>
      isBase64Char a && isBase64Char b && isBase64Char c && isBase64Char d &&
      isBase64Chars rest
  | _ => false

/-- isBase64 from src/index.js lines 7 to 8. -/
def isBase64 (s : String) : Bool := isBase64Chars s.toList

/-- Whether the first list occurs at the head of the second. -/
def startsWithChars {α : Type} [BEq α] : List α → List α → Bool
  | [], _ => true
  | _ :: _, [] => false
  | p :: ps, x :: xs => p == x && startsWithChars ps xs

/-- The test of the regex (http|https) anchored at the start, applied to a
string.  The first alternative http already matches every subject matched
by the alternative https, so the test succeeds exactly when the subject
begins with the four characters http. -/
def regexTestHttp (s : String) : Bool := startsWithChars "http".toList s.toList

/-- The ASCII codes of the text http.  When the URL regex is applied to a
Buffer, JS first coerces the buffer to its UTF-8 string; that string
begins with the ASCII text http exactly when the byte sequence begins
with these four bytes, since UTF-8 decodes a leading byte below 128 to
that character and decodes no other byte sequence to an ASCII character. -/
def httpBytes : List Nat := [104, 116, 116, 112]

/-! ## Image inputs and the resolver (src/index.js lines 131 to 141) -/

/-- The runtime shapes accepted by fetchImage: a JS string or a Buffer
(a list of byte values). -/
inductive ImageInput where
  | str (s : String)
  | buf (b : List Nat)
deriving DecidableEq

/-- The URL regex test exactly as the source applies it on line 132: the
regex receives the image value itself, so a Buffer is coerced to its
string before the prefix test. -/
def urlRegexTest : ImageInput → Bool
  | .str s => regexTestHttp s
  | .buf b => startsWithChars httpBytes b

/-- The value of one base64 character, by its position in the alphabet. -/
def b64CharVal (c : Char) : Nat := b64Alphabet.findIdx (fun x => x == c)

/-- Reassemble a list of six-bit values into bytes, three bytes per group
of four sextets, as Buffer does after discarding padding: a trailing
group of three sextets yields two bytes and a trailing group of two
sextets yields one byte. -/
def sextetsToBytes : List Nat → List Nat
  | a :: b :: c :: d :: rest =>
    (a * 4 + b / 16) :: (b % 16 * 16 + c / 4) :: (c % 4 * 64 + d) ::
      sextetsToBytes rest
  | [a, b, c] => [a * 4 + b / 16, b % 16 * 16 + c / 4]
  | [a, b] => [a * 4 + b / 16]
  | _ => []

/-- Base64 decoding of a string, the semantics of
Buffer.from(s, base64) on a string accepted by the isBase64 regex:
padding characters are discarded and the sextets are packed into bytes. -/
def b64decode (s : String) : List Nat :=
  sextetsToBytes ((s.toList.filter (fun c => !(c == '='))).map b64CharVal)

/-- The alphabet character of a six-bit value. -/
def valToB64Char (n : Nat) : Char := b64Alphabet.getD n 'A'

/-- Base64 encoding of a byte list, the semantics of
buf.toString(base64) used by bufferToBase64 on line 148: three bytes per
group of four characters, a short trailing group padded with = signs. -/
def b64encodeChars : List Nat → List Char
  | b1 :: b2 :: b3 :: rest =>
    valToB64Char (b1 / 4) :: valToB64Char (b1 % 4 * 16 + b2 / 16) ::
    valToB64Char (b2 % 16 * 4 + b3 / 64) :: valToB64Char (b3 % 64) ::
      b64encodeChars rest
  | [b1, b2] =>
    [valToB64Char (b1 / 4), valToB64Char (b1 % 4 * 16 + b2 / 16),
     valToB64Char (b2 % 16 * 4), '=']
  | [b1] =>
    [valToB64Char (b1 / 4), valToB64Char (b1 % 4 * 16), '=', '=']
  | [] => []

/-- bufferToBase64 from src/index.js lines 147 to 149. -/
def bufferToBase64 (b : List Nat) : String := String.mk (b64encodeChars b)

/-- The action taken by fetchImage, recording which branch fired: an HTTP
fetch of the value passed as the url option, the buffer returned as is,
the decoded bytes of a base64 string, or a filesystem read of a path. -/
inductive FetchResult where
  | fetched (urlArg : ImageInput)
  | buffer (b : List Nat)
  | decoded (b : List Nat)
  | fileRead (path : String)
deriving DecidableEq

/-- fetchImage from src/index.js lines 131 to 141: the ordered branch
chain.  First the URL regex test (which coerces a Buffer to a string),
then the Buffer instance test, then the isBase64 test, and finally the
filesystem fallback. -/
def fetchImage (image : ImageInput) : FetchResult :=
  if urlRegexTest image then .fetched image
  else
    match image with
    | .buf b => .buffer b
    | .str s => if isBase64 s then .decoded (b64decode s) else .fileRead s

/-! ## The polling loop (src/index.js lines 95 to 121)

Each iteration of the while-true loop first awaits delay(retryInterval),
then issues one GET request and inspects the JSON response.  A response
with status 1 assigns the request field to result and breaks; a response
with status 0 whose request field is not CAPCHA_NOT_READY hits a bare
break placed before the throw statement (the throw on line 117 is
unreachable), leaving result unassigned; every other response continues
the loop.  The loop is modelled against a finite script of responses,
with counters for the attempts made and the waits performed; none means
the script was exhausted with the loop still running. -/

/-- One JSON response of the result endpoint. -/
structure PollResponse where
  status : Int
  request : String
deriving DecidableEq

/-- What the loop terminates with: the answer string assigned to result,
or the unassigned result (JS undefined) reached through the bare break. -/
inductive PollResult where
  | answer (a : String)
  | undefinedAnswer
deriving DecidableEq

/-- The loop body, consuming the script.  Both counters grow together on
every iteration because the delay call on line 103 precedes the request
on line 104: every attempt, the first included, follows one wait. -/
def getAnswerAux : List PollResponse → Nat → Nat → Option (PollResult × Nat × Nat)
  | [], _, _ => none
  | r :: rest, attempts, waits =>
    if r.status = 1 then some (.answer r.request, attempts + 1, waits + 1)
    else if r.request ≠ "CAPCHA_NOT_READY" ∧ r.status = 0 then
      some (.undefinedAnswer, attempts + 1, waits + 1)
    else getAnswerAux rest (attempts + 1) (waits + 1)

/-- getAnswer from src/index.js lines 95 to 121, run against a script of
responses. -/
def getAnswer (rs : List PollResponse) : Option (PollResult × Nat × Nat) :=
  getAnswerAux rs 0 0

/-- The transient response of the service. -/
def notReady : PollResponse := ⟨0, "CAPCHA_NOT_READY"⟩

/-! ## Submission (src/index.js lines 74 to 87) -/

/-- The longest digit run at the head of a character list. -/
def leadingDigits : List Char → List Char
  | c :: rest => if c.isDigit then c :: leadingDigits rest else []
  | [] => []

/-- The numeric value of a digit list. -/
def digitsVal (l : List Char) : Nat :=
  List.foldl (fun acc c => acc * 10 + (c.toNat - 48)) 0 l

/-- JS parseInt in base 10 on a trimmed subject: an optional sign followed
by the longest digit run; none models NaN, produced when no digit leads. -/
def parseIntJS (s : String) : Option Int :=
  match s.toList with
  | '-' :: rest =>
    match leadingDigits rest with
    | [] => none
    | ds => some (-(digitsVal ds : Int))
  | '+' :: rest =>
    match leadingDigits rest with
    | [] => none
    | ds => some ((digitsVal ds : Int))
  | l =>
    match leadingDigits l with
    | [] => none
    | ds => some ((digitsVal ds : Int))

/-- The response handling of sendImage, lines 82 to 86: a response with
status 0 throws an Error carrying the request field; otherwise the
request field is parsed as an integer (none models NaN). -/
def sendImage (response : PollResponse) : Except String (Option Int) :=
  if response.status = 0 then .error response.request
  else .ok (parseIntJS response.request)

/-- A property write on a JS object, modelled on an association list with
at most one entry per key: writing overwrites an existing property in
place, keeping its position, and otherwise appends a new property. -/
def objSet : List (String × String) → String → String → List (String × String)
  | [], k, v => [(k, v)]
  | (k1, v1) :: rest, k, v =>
    if k1 = k then (k, v) :: rest else (k1, v1) :: objSet rest k v

/-- Object.assign(target, source): the properties of the source are
written into the target in order.  The target object is mutated in
place, so the result is the very object the caller passed in. -/
def objAssign (o : List (String × String)) (u : List (String × String)) :
    List (String × String) :=
  List.foldl (fun acc kv => objSet acc kv.1 kv.2) o u

/-- A property read on a JS object. -/
def objGet : List (String × String) → String → Option String
  | [], _ => none
  | (k1, v1) :: rest, k => if k1 = k then some v1 else objGet rest k

/-- The mandatory fields written by line 75; the number 1 of the json
field is rendered by querystring.stringify as the text 1. -/
def mandatoryFields (apiKey : String) : List (String × String) :=
  [("key", apiKey), ("method", "base64"), ("json", "1")]

/-- The options object after line 75: the caller object extended in place
with the mandatory fields, which is then stringified into the query of
the submission URL on line 76. -/
def sendImageOptions (apiKey : String) (options : List (String × String)) :
    List (String × String) :=
  objAssign options (mandatoryFields apiKey)

/-! ## The HTTP calls the client issues

Each value below records the options object handed to the request
library by one call site.  The library supports a timeout option; a
timeout field of none records that the call site does not pass one. -/

inductive HttpMethod where
  | get
  | post
deriving DecidableEq

/-- The options of one request made through the request library: the
verb, the url option, the form option (field name and value, as in
form: { body: base64Image }), whether encoding: null is passed, and the
timeout option. -/
structure HttpCall where
  method : HttpMethod
  url : String
  form : Option (String × String)
  encodingNull : Bool
  timeout : Option Nat
deriving DecidableEq

/-- querystring.stringify on an object whose keys and values need no
percent escaping. -/
def stringifyQuery (o : List (String × String)) : String :=
  String.intercalate "&" (o.map (fun p => p.1 ++ "=" ++ p.2))

/-- The submission endpoint, line 23. -/
def POST_URL : String := "http://rucaptcha.com/in.php"

/-- The result endpoint, line 24. -/
def GET_URL : String := "http://rucaptcha.com/res.php"

/-- The POST of sendImage, lines 78 to 81: url and form only. -/
def sendImageCall (apiKey : String) (options : List (String × String))
    (base64Image : String) : HttpCall :=
  ⟨.post, POST_URL ++ "?" ++ stringifyQuery (sendImageOptions apiKey options),
   some ("body", base64Image), false, none⟩

/-- The GET of one poll attempt, lines 96 to 99: url only. -/
def getAnswerCall (apiKey : String) (captchaId : Int) : HttpCall :=
  ⟨.get,
   GET_URL ++ "?" ++ stringifyQuery
     [("key", apiKey), ("action", "get"), ("id", toString captchaId), ("json", "1")],
   none, false, none⟩

/-- The GET of getBalance, lines 52 to 58: url only. -/
def getBalanceCall (apiKey : String) : HttpCall :=
  ⟨.get, GET_URL ++ "?" ++ stringifyQuery [("key", apiKey), ("action", "getbalance")],
   none, false, none⟩

/-- The GET of report, lines 61 to 66: url only. -/
def reportCall (apiKey : String) (captchaId : String) : HttpCall :=
  ⟨.get,
   GET_URL ++ "?" ++ stringifyQuery
     [("key", apiKey), ("action", "reportbad"), ("id", captchaId)],
   none, false, none⟩

/-- The GET of the image fetch branch, line 133: url and encoding null. -/
def fetchImageCall (url : String) : HttpCall :=
  ⟨.get, url, none, true, none⟩

/-! ## Construction (src/index.js lines 11 to 25) -/

/-- The fields the constructor reads from the settings object.  A field
of none models an absent property.  These are the only two settings the
constructor stores. -/
structure Settings where
  apiKey : Option String
  retryInterval : Option Int
deriving DecidableEq

/-- The configuration a constructed solver holds. -/
structure SolverState where
  apiKey : String
  retryInterval : Int
deriving DecidableEq

/-- The two construction failures. -/
inductive ConfigError where
  | noSettings
  | noApiKey
deriving DecidableEq

/-- The constructor, lines 11 to 25.  A missing settings object throws;
retryInterval is taken through the JS or-operator, so an absent or zero
value (both falsy) yields the default 3000; a missing or empty apiKey
(both falsy) throws after the assignments. -/
def mkSolver : Option Settings → Except ConfigError SolverState
  | none => .error .noSettings
  | some s =>
    let key := s.apiKey.getD ""
    let ri : Int :=
      match s.retryInterval with
      | some n => if n = 0 then 3000 else n
      | none => 3000
    if key = "" then .error .noApiKey
    else .ok ⟨key, ri⟩

/-! ## The solve chain (src/index.js lines 39 to 45) -/

/-- What solve resolves with: the parsed captcha id and the value of
result from the polling loop, where an answer of none is the JS
undefined produced by the bare break path. -/
structure SolveResult where
  id : Option Int
  answer : Option String
deriving DecidableEq

/-- solve from src/index.js lines 39 to 45: fetch the image, encode it,
submit, then poll.  httpBody and fileBody script the bodies returned by
the HTTP and filesystem effects of fetchImage; submitResponse and
pollResponses script the remote service.  The outer none means solve
never returns because the polling loop is still running when the script
ends.  The merged query and the issued requests are modelled separately
by sendImageOptions and the HttpCall values. -/
def solve (image : ImageInput) (httpBody : ImageInput → List Nat)
    (fileBody : String → List Nat) (submitResponse : PollResponse)
    (pollResponses : List PollResponse) : Option (Except String SolveResult) :=
  let buffer :=
    match fetchImage image with
    | .fetched u => httpBody u
    | .buffer b => b
    | .decoded b => b
    | .fileRead p => fileBody p
  let _base64Image := bufferToBase64 buffer
  match sendImage submitResponse with
  | .error e => some (.error e)
  | .ok id =>
    match getAnswer pollResponses with
    | none => none
    | some (.answer a, _, _) => some (.ok ⟨id, some a⟩)
    | some (.undefinedAnswer, _, _) => some (.ok ⟨id, none⟩)

/-! ## Helper lemmas -/

/-- Running the loop body on a not-ready response steps to the rest of
the script with both counters advanced. -/
theorem getAnswerAux_notReady_step (l : List PollResponse) (a w : Nat) :
    getAnswerAux (notReady :: l) a w = getAnswerAux l (a + 1) (w + 1) := rfl

/-- The loop never terminates on a script made only of not-ready
responses, whatever the counters. -/
theorem getAnswerAux_replicate_notReady :
    ∀ (n a w : Nat), getAnswerAux (List.replicate n notReady) a w = none := by
  intro n
  induction n with
  | zero => intro a w; rfl
  | succ m ih =>
    intro a w
    rw [List.replicate_succ, getAnswerAux_notReady_step]
    exact ih (a + 1) (w + 1)

/-- Reading back the key just written yields the written value. -/
theorem objGet_objSet_self (o : List (String × String)) (k v : String) :
    objGet (objSet o k v) k = some v := by
  induction o with
  | nil => simp [objSet, objGet]
  | cons p rest ih =>
    obtain ⟨k1, v1⟩ := p
    by_cases h : k1 = k
    · simp [objSet, objGet, h]
    · simp [objSet, objGet, h, ih]

/-- Writing one key leaves the reads of every other key unchanged. -/
theorem objGet_objSet_ne (o : List (String × String)) (k v k2 : String)
    (h : k2 ≠ k) : objGet (objSet o k v) k2 = objGet o k2 := by
  induction o with
  | nil => simp [objSet, objGet, Ne.symm h]
  | cons p rest ih =>
    obtain ⟨k1, v1⟩ := p
    by_cases h1 : k1 = k
    · simp [objSet, objGet, h1, Ne.symm h]
    · by_cases h2 : k1 = k2
      · simp [objSet, objGet, h1, h2, h]
      · simp [objSet, objGet, h1, h2, ih]

/-- Writing one key keeps every entry of the object whose key differs. -/
theorem mem_objSet_of_ne (o : List (String × String)) (k v k2 v2 : String)
    (h : k2 ≠ k) (hm : (k2, v2) ∈ o) : (k2, v2) ∈ objSet o k v := by
  induction o with
  | nil => simp at hm
  | cons p rest ih =>
    obtain ⟨k1, v1⟩ := p
    rcases List.mem_cons.mp hm with he | ht
    · have hkey : k2 = k1 := congrArg Prod.fst he
      have hk1 : k1 ≠ k := fun hkk => h (hkey.trans hkk)
      show (k2, v2) ∈ if k1 = k then (k, v) :: rest else (k1, v1) :: objSet rest k v
      rw [if_neg hk1]
      exact List.mem_cons.mpr (Or.inl he)
    · by_cases h1 : k1 = k
      · show (k2, v2) ∈ if k1 = k then (k, v) :: rest else (k1, v1) :: objSet rest k v
        rw [if_pos h1]
        exact List.mem_cons_of_mem _ ht
      · show (k2, v2) ∈ if k1 = k then (k, v) :: rest else (k1, v1) :: objSet rest k v
        rw [if_neg h1]
        exact List.mem_cons_of_mem _ (ih ht)

/-- The merged object is three successive property writes on the caller
object, in the order of the mandatory fields. -/
theorem sendImageOptions_eq (apiKey : String) (o : List (String × String)) :
    sendImageOptions apiKey o =
      objSet (objSet (objSet o "key" apiKey) "method" "base64") "json" "1" := rfl

/-! ## Claims -/

/-- Claim C1: the spec demands that a poll receiving only not-ready
responses terminate with SolveTimeoutError after exactly retryCount
attempts.  The code has no attempt budget at all: the while-true loop of
getAnswer consumes any number of not-ready responses and is still
running afterwards, so it polls forever and no timeout failure exists. -/
theorem poll_not_ready_never_terminates (n : Nat) :
    getAnswer (List.replicate n notReady) = none :=
  getAnswerAux_replicate_notReady n 0 0

/-- Claim C2: the spec demands a PollError carrying the request field
when a response has status 0 and a request other than CAPCHA_NOT_READY.
The code instead reaches the bare break placed before the unreachable
throw on line 117, so the loop ends with result still unassigned: after
one attempt and its single preceding wait the call resolves with the
undefined result instead of failing. -/
theorem poll_error_token_silent_break :
    getAnswer [⟨0, "ERROR_WRONG_CAPTCHA_ID"⟩] =
      some (.undefinedAnswer, 1, 1) := rfl

/-- Claim C3: the spec demands that solve return only complete results.
With a successful submission of id 42 and a first poll response carrying
an error token, solve resolves with an id of 42 and an undefined answer:
a partial result. -/
theorem solve_partial_result :
    solve (.buf [1, 2, 3]) (fun _ => []) (fun _ => []) ⟨1, "42"⟩
        [⟨0, "ERROR_WRONG_CAPTCHA_ID"⟩] =
      some (.ok ⟨some 42, none⟩) := rfl

/-- Claim C4 counterexample: a buffer whose bytes are the ASCII codes of
http is not passed through unchanged; the URL regex test on line 132
coerces it to a string, matches, and the buffer is sent to the HTTP
fetch branch as the url option. -/
theorem fetchImage_http_buffer_cex :
    fetchImage (.buf [104, 116, 116, 112]) =
        .fetched (.buf [104, 116, 116, 112]) ∧
      fetchImage (.buf [104, 116, 116, 112]) ≠ .buffer [104, 116, 116, 112] :=
  ⟨rfl, by decide⟩

/-- Claim C4 amended: every buffer whose contents do not begin with the
ASCII bytes of http is returned exactly as it is, with no decoding and
no fetch. -/
theorem fetchImage_buffer_identity (b : List Nat)
    (h : startsWithChars httpBytes b = false) :
    fetchImage (.buf b) = .buffer b := by
  simp [fetchImage, urlRegexTest, h]

theorem fetchImage_buffer_identity_witness :
    startsWithChars httpBytes [255, 216, 255, 224] = false ∧
      fetchImage (.buf [255, 216, 255, 224]) = .buffer [255, 216, 255, 224] :=
  ⟨by decide, fetchImage_buffer_identity [255, 216, 255, 224] (by decide)⟩

/-- Claim C5: a string accepted by the isBase64 regex that does not begin
with the URL prefix http is decoded from base64 into bytes; the decoded
branch is distinct from the fetch and file branches, so the string is
neither fetched over HTTP nor read as a path. -/
theorem fetchImage_base64_decodes (s : String) (h1 : isBase64 s = true)
    (h2 : regexTestHttp s = false) :
    fetchImage (.str s) = .decoded (b64decode s) := by
  simp [fetchImage, urlRegexTest, h1, h2]

theorem fetchImage_base64_decodes_witness :
    isBase64 "aGVsbG8=" = true ∧ regexTestHttp "aGVsbG8=" = false ∧
      fetchImage (.str "aGVsbG8=") = .decoded [104, 101, 108, 108, 111] :=
  ⟨by decide, by decide, by
    rw [fetchImage_base64_decodes "aGVsbG8=" (by decide) (by decide)]
    decide⟩

/-- Claim C6 counterexample: on the script of two not-ready responses
followed by a success carrying ABCD, the loop returns ABCD after three
attempts and three waits, not two waits, because the delay on line 103
runs before every request, the first included. -/
theorem poll_three_attempts_two_waits_cex :
    getAnswer [notReady, notReady, ⟨1, "ABCD"⟩] =
        some (.answer "ABCD", 3, 3) ∧
      getAnswer [notReady, notReady, ⟨1, "ABCD"⟩] ≠
        some (.answer "ABCD", 3, 2) :=
  ⟨rfl, by decide⟩

/-- Claim C6 amended: on that script the loop returns ABCD after exactly
three attempts and exactly three waits. -/
theorem poll_three_attempts_three_waits :
    getAnswer [notReady, notReady, ⟨1, "ABCD"⟩] =
      some (.answer "ABCD", 3, 3) := rfl

/-- Claim C7: the query object of the submission request keeps every
caller pair whose key is none of the mandatory keys, and reads of the
mandatory keys yield the api key, base64 and 1, the mandatory values
winning on any collision. -/
theorem sendImage_query_merge (apiKey : String)
    (options : List (String × String)) (k v : String) (h1 : (k, v) ∈ options)
    (h2 : k ≠ "key") (h3 : k ≠ "method") (h4 : k ≠ "json") :
    (k, v) ∈ sendImageOptions apiKey options ∧
      objGet (sendImageOptions apiKey options) "key" = some apiKey ∧
      objGet (sendImageOptions apiKey options) "method" = some "base64" ∧
      objGet (sendImageOptions apiKey options) "json" = some "1" := by
  rw [sendImageOptions_eq]
  refine ⟨?_, ?_, ?_, ?_⟩
  · exact mem_objSet_of_ne _ _ _ _ _ h4
      (mem_objSet_of_ne _ _ _ _ _ h3 (mem_objSet_of_ne _ _ _ _ _ h2 h1))
  · rw [objGet_objSet_ne _ _ _ _ (by decide), objGet_objSet_ne _ _ _ _ (by decide)]
    exact objGet_objSet_self _ _ _
  · rw [objGet_objSet_ne _ _ _ _ (by decide)]
    exact objGet_objSet_self _ _ _
  · exact objGet_objSet_self _ _ _

theorem sendImage_query_merge_witness :
    ("numeric", "1") ∈ sendImageOptions "k1" [("numeric", "1"), ("method", "7")] ∧
      objGet (sendImageOptions "k1" [("numeric", "1"), ("method", "7")]) "key" =
        some "k1" ∧
      objGet (sendImageOptions "k1" [("numeric", "1"), ("method", "7")]) "method" =
        some "base64" ∧
      objGet (sendImageOptions "k1" [("numeric", "1"), ("method", "7")]) "json" =
        some "1" :=
  sendImage_query_merge "k1" [("numeric", "1"), ("method", "7")] "numeric" "1"
    (by decide) (by decide) (by decide) (by decide)

/-- Claim C8 counterexample: none of the five request call sites passes a
timeout option, so in particular none is issued with a forty second
timeout. -/
theorem http_calls_no_timeout_cex :
    (sendImageCall "k1" [] "AQID").timeout = none ∧
      (getAnswerCall "k1" 42).timeout = none ∧
      (getBalanceCall "k1").timeout = none ∧
      (reportCall "k1" "42").timeout = none ∧
      (fetchImageCall "http://host/img.jpg").timeout = none ∧
      (sendImageCall "k1" [] "AQID").timeout ≠ some 40000 :=
  ⟨rfl, rfl, rfl, rfl, rfl, by decide⟩

/-- Claim C8 amended: whatever the arguments, every HTTP call the client
issues carries no timeout option at all, so no per-request timeout
bounds any call. -/
theorem http_calls_no_timeout (apiKey b64 cid u : String)
    (options : List (String × String)) (id : Int) :
    (sendImageCall apiKey options b64).timeout = none ∧
      (getAnswerCall apiKey id).timeout = none ∧
      (getBalanceCall apiKey).timeout = none ∧
      (reportCall apiKey cid).timeout = none ∧
      (fetchImageCall u).timeout = none :=
  ⟨rfl, rfl, rfl, rfl, rfl⟩

/-- Claim C9: line 75 writes the mandatory fields into the caller options
object itself, so after the call that object reads back the configured
api key under key, base64 under method and 1 under json, whatever the
caller had stored under those keys, while every read of a different key
is unchanged. -/
theorem sendImage_mutates_options (apiKey : String)
    (options : List (String × String)) :
    objGet (sendImageOptions apiKey options) "key" = some apiKey ∧
      objGet (sendImageOptions apiKey options) "method" = some "base64" ∧
      objGet (sendImageOptions apiKey options) "json" = some "1" ∧
      ∀ k2, k2 ≠ "key" → k2 ≠ "method" → k2 ≠ "json" →
        objGet (sendImageOptions apiKey options) k2 = objGet options k2 := by
  rw [sendImageOptions_eq]
  refine ⟨?_, ?_, ?_, ?_⟩
  · rw [objGet_objSet_ne _ _ _ _ (by decide), objGet_objSet_ne _ _ _ _ (by decide)]
    exact objGet_objSet_self _ _ _
  · rw [objGet_objSet_ne _ _ _ _ (by decide)]
    exact objGet_objSet_self _ _ _
  · exact objGet_objSet_self _ _ _
  · intro k2 hk hm hj
    rw [objGet_objSet_ne _ _ _ _ hj, objGet_objSet_ne _ _ _ _ hm,
      objGet_objSet_ne _ _ _ _ hk]

theorem sendImage_mutates_options_witness :
    objGet (sendImageOptions "k1" [("method", "7")]) "method" = some "base64" ∧
      objGet (sendImageOptions "k1" [("method", "7"), ("numeric", "1")]) "numeric" =
        objGet [("method", "7"), ("numeric", "1")] "numeric" :=
  ⟨(sendImage_mutates_options "k1" [("method", "7")]).2.1,
    (sendImage_mutates_options "k1" [("method", "7"), ("numeric", "1")]).2.2.2
      "numeric" (by decide) (by decide) (by decide)⟩

/-- Claim C10: a settings object carrying a retryInterval of zero, a
falsy value, falls through the JS or-operator on line 17, so the
constructed solver holds the default interval of 3000; an absent
retryInterval does the same. -/
theorem retryInterval_zero_replaced (apiKey : String) (h : apiKey ≠ "") :
    mkSolver (some ⟨some apiKey, some 0⟩) = .ok ⟨apiKey, 3000⟩ ∧
      mkSolver (some ⟨some apiKey, none⟩) = .ok ⟨apiKey, 3000⟩ := by
  constructor <;> simp [mkSolver, h]

theorem retryInterval_zero_replaced_witness :
    "k1" ≠ "" ∧ mkSolver (some ⟨some "k1", some 0⟩) = .ok ⟨"k1", 3000⟩ :=
  ⟨by decide, (retryInterval_zero_replaced "k1" (by decide)).1⟩

end Rucaptcha
